import Mathlib

/-!
Verification of the FitReword backend (`src/server.js`) against its
natural-language specification.  The JavaScript service keeps all state in
one JSON document that every request loads, mutates in memory and rewrites.
We embed that document and each mutating endpoint as pure Lean functions:
`findIndex` + in-place mutation becomes `updateFirst`, request-supplied
identifiers, timestamps and hashing become explicit parameters, and every
endpoint returns its HTTP status, message, payload and the updated document.
-/

namespace FitReword

/-! ## A model of the JSON values stored in bilingual item fields.
JSON-parsed data never contains `undefined`, but field lookups can produce
it, so the model includes `vUndefined`.  Arrays are kept because `typeof []`
is `"object"` in JavaScript. -/

inductive Value where
  | vNull
  | vUndefined
  | vBool (b : Bool)
  | vNum (n : Int)
  | vStr (s : String)
  | vObj (fields : List (String × Value))
  | vArr (elems : List Value)

/-- JavaScript truthiness of a `Value` (`null`, `undefined`, `false`, `0`
and `""` are falsy; every object and array is truthy). -/
def truthy : Value → Bool
  | .vNull => false
  | .vUndefined => false
  | .vBool b => b
  | .vNum n => n != 0
  | .vStr s => !s.isEmpty
  | .vObj _ => true
  | .vArr _ => true

/-- `typeof v === 'object'` (true for `null`, plain objects and arrays). -/
def isObjectType : Value → Bool
  | .vNull => true
  | .vObj _ => true
  | .vArr _ => true
  | _ => false

/-- Property access `v[k]`: the first binding of `k` in an object, and
`undefined` for a missing key or a non-object receiver. -/
def getField : Value → String → Value
  | .vObj fs, k =>
    match fs.find? (fun kv => kv.1 == k) with
    | some kv => kv.2
    | none => .vUndefined
  | _, _ => .vUndefined

/-- `v === undefined`. -/
def isVUndefined : Value → Bool
  | .vUndefined => true
  | _ => false

/-! ## JavaScript string primitives

`String.prototype.startsWith`, `toLowerCase` and `trim`, embedded as
structurally recursive functions over the character list (the stored
identifiers these are applied to are ASCII, where `Char.toLower` agrees
with JS `toLowerCase`). -/

def jsStartsWith (s pre : String) : Bool := pre.data.isPrefixOf s.data

def jsToLower (s : String) : String := ⟨s.data.map Char.toLower⟩

def jsTrim (s : String) : String :=
  ⟨((s.data.dropWhile Char.isWhitespace).reverse.dropWhile
      Char.isWhitespace).reverse⟩

/-! ## Translator (`translateItem`, server.js lines 71-81) -/

/-- The locale resolution inlined in `translateItem`:
`lang && lang.startsWith('en') ? 'en' : 'ar'`, with `none` standing for an
absent `Accept-Language` header (an empty header string is falsy in JS). -/
def resolveLocale : Option String → String
  | none => "ar"
  | some s =>
    if s.data.isEmpty then "ar"
    else if jsStartsWith s "en" then "en" else "ar"

/-- One iteration of the `for (const key in newItem)` loop in
`translateItem`: a field value that is truthy, of object type and whose
`ar` property is not `undefined` is replaced by its property at
`targetLang`; any other value passes through. -/
def translateField (targetLang : String) (v : Value) : Value :=
  if truthy v && isObjectType v && !isVUndefined (getField v "ar") then
    getField v targetLang
  else v

/-- `translateItem(item, lang)` (server.js lines 71-81).  Stored items are
JSON objects or `null`/absent, so the item is an optional association
list; `none` models the falsy input for which the code returns `null`. -/
def translateItem (item : Option (List (String × Value))) (lang : Option String) :
    Option (List (String × Value)) :=
  match item with
  | none => none
  | some fs =>
    let targetLang := resolveLocale lang
    some (fs.map (fun kv => (kv.1, translateField targetLang kv.2)))

/-- Modelled from the spec (§4.2): `resolveLocale(header)` is `"en"` iff
the header is present and begins with the case-sensitive prefix `"en"`,
and `"ar"` otherwise, including when the header is absent. -/
def resolveLocaleSpec : Option String → String
  | none => "ar"
  | some s => if jsStartsWith s "en" then "en" else "ar"

/-- An object value containing a key `"ar"` (with a defined value; items
are parsed from JSON, where an explicitly `undefined` property cannot
occur). -/
def hasArKey : Value → Bool
  | .vObj fs =>
    match fs.find? (fun kv => kv.1 == "ar") with
    | some kv => !isVUndefined kv.2
    | none => false
  | _ => false

/-- Modelled from the spec (§4.2): a top-level field whose value is an
object containing a key `"ar"` is replaced by that object's value at the
chosen locale; all other fields pass through unchanged; `null` input
yields `null`. -/
def projectItemSpec (item : Option (List (String × Value))) (locale : String) :
    Option (List (String × Value)) :=
  match item with
  | none => none
  | some fs =>
    some (fs.map (fun kv => if hasArKey kv.2 then (kv.1, getField kv.2 locale) else kv))

/-! ## Domain data model (the single JSON document, server.js lines 49-68
and the shapes built by the endpoints) -/

/-- A challenge from `data.challenges`: id, bilingual name, point reward. -/
structure Challenge where
  id : String
  name : Value
  reward : Int

/-- The snapshot `{...challenge, startedAt}` stored in a user's
`activeChallenge` slot (server.js lines 349-352). -/
structure ActiveChallenge where
  id : String
  name : Value
  reward : Int
  startedAt : String

/-- A redemption record appended by the redeem endpoint
(server.js lines 452-456). -/
structure Redemption where
  id : String
  date : String
  qrCodeData : String

/-- A user record as created by `POST /api/register`
(server.js lines 176-187). -/
structure User where
  id : String
  username : String
  email : String
  password : String
  points : Int
  profilePictureUrl : Option String
  bio : Option String
  activeChallenge : Option ActiveChallenge
  completedChallenges : List String
  redeemedRewards : List Redemption

/-- A submission as created by `POST /api/challenges/submit`
(server.js lines 408-417) plus the resolution fields written by the
admin approve/reject endpoints. -/
structure Submission where
  id : String
  userId : String
  username : String
  challengeName : Value
  challenge : ActiveChallenge
  imageUrl : String
  status : String
  submittedAt : String
  processedAt : Option String := none
  pointsAwarded : Option Int := none
  rejectionReason : Option String := none

/-- A reward from `data.rewards`: id, bilingual name, point cost. -/
structure Reward where
  id : String
  name : Value
  cost : Int

/-- A support ticket (server.js lines 486-494 and 651-659). -/
structure SupportTicket where
  id : String
  userId : String
  username : String
  message : String
  sender : String
  status : String
  createdAt : String

/-- The aggregate document persisted in `data.json`. -/
structure Document where
  users : List User
  challenges : List Challenge
  rewards : List Reward
  faq : List Value
  submissions : List Submission
  supportTickets : List SupportTicket

/-- The default document written by `readData` when the file is missing
(server.js lines 55-62). -/
def defaultData : Document :=
  { users := [], challenges := [], rewards := [], faq := [],
    submissions := [], supportTickets := [] }

/-- `findIndex` followed by in-place mutation of the found element:
apply `f` to the first element satisfying `p`, leave the list unchanged
when no element matches. -/
def updateFirst (p : α → Bool) (f : α → α) : List α → List α
  | [] => []
  | a :: as => if p a then f a :: as else a :: updateFirst p f as

/-- The user view returned to clients: the user record with the
`password` field destructured away (`const { password: _, ...rest }`). -/
structure UserView where
  id : String
  username : String
  email : String
  points : Int
  profilePictureUrl : Option String
  bio : Option String
  activeChallenge : Option ActiveChallenge
  completedChallenges : List String
  redeemedRewards : List Redemption

/-- Drop the password hash from a user record. -/
def userView (u : User) : UserView :=
  { id := u.id, username := u.username, email := u.email, points := u.points,
    profilePictureUrl := u.profilePictureUrl, bio := u.bio,
    activeChallenge := u.activeChallenge,
    completedChallenges := u.completedChallenges,
    redeemedRewards := u.redeemedRewards }

/-- HTTP status and message of a response. -/
structure ApiResponse where
  status : Nat
  message : String

/-- Status, message and updated document of a document-mutating endpoint. -/
structure OpOut where
  status : Nat
  message : String
  doc : Document

/-- First user whose `id` equals `uid` (`data.users.find(u => u.id === ...)`). -/
def lookupUser (doc : Document) (uid : String) : Option User :=
  doc.users.find? (fun u => u.id == uid)

/-- First submission whose `id` equals `sid`. -/
def lookupSubmission (doc : Document) (sid : String) : Option Submission :=
  doc.submissions.find? (fun s => s.id == sid)

/-! ## Auth endpoints -/

/-- The single error response of `POST /api/login` for both a missing user
and a failed password comparison (server.js lines 127 and 130). -/
def invalidLoginResp : ApiResponse :=
  { status := 401, message := "اسم المستخدم أو كلمة المرور غير صحيح" }

/-- `POST /api/login` (server.js lines 122-143).  `verify pw hash` stands
for `bcrypt.compare`; the endpoint does not mutate the document, so only
the response is returned (locale projection of the returned view is
modelled separately on `Value`). -/
def login (doc : Document) (verify : String → String → Bool)
    (username password : String) : Except ApiResponse UserView :=
  match doc.users.find?
      (fun u => jsToLower u.username == jsToLower username) with
  | none => .error invalidLoginResp
  | some u =>
    if verify password u.password then .ok (userView u)
    else .error invalidLoginResp

/-- A request body field that fails the JS truthiness test `!field`:
absent, or present but the empty string. -/
def isBlank : Option String → Bool
  | none => true
  | some s => s.data.isEmpty

/-- Response of `POST /api/register`: status, message, optional created
user view, and the updated document. -/
structure RegisterOut where
  status : Nat
  message : String
  user : Option UserView
  doc : Document

/-- `POST /api/register` (server.js lines 146-208).  `hash` stands for
`bcrypt.hash` and `newId` for the generated `uuidv4()`. -/
def register (doc : Document) (username email password : Option String)
    (hash : String → String) (newId : String) : RegisterOut :=
  if isBlank username || isBlank email || isBlank password then
    { status := 400, message := "جميع الحقول مطلوبة", user := none, doc := doc }
  else if (password.getD "").length < 6 then
    { status := 400, message := "كلمة المرور يجب أن تكون 6 أحرف على الأقل",
      user := none, doc := doc }
  else
    match doc.users.find? (fun u =>
        jsToLower u.username == jsToLower (username.getD "") ||
        jsToLower u.email == jsToLower (email.getD "")) with
    | some _ =>
      { status := 409, message := "اسم المستخدم أو البريد الإلكتروني موجود بالفعل",
        user := none, doc := doc }
    | none =>
      let newUser : User :=
        { id := newId, username := jsTrim (username.getD ""),
          email := jsToLower (jsTrim (email.getD "")),
          password := hash (password.getD ""), points := 0,
          profilePictureUrl := none, bio := none, activeChallenge := none,
          completedChallenges := [], redeemedRewards := [] }
      { status := 201, message := "تم إنشاء الحساب بنجاح",
        user := some (userView newUser),
        doc := { doc with users := doc.users ++ [newUser] } }

/-! ## Profile endpoints -/

/-- `PUT /api/user/profile` (server.js lines 268-288): sets `bio` when the
body provides it (`bio !== undefined`). -/
def updateProfile (doc : Document) (uid : String) (bio : Option String) : OpOut :=
  match lookupUser doc uid with
  | none => { status := 404, message := "المستخدم غير موجود", doc := doc }
  | some _ =>
    let users' :=
      match bio with
      | none => doc.users
      | some b => updateFirst (fun u => u.id == uid)
          (fun u => { u with bio := some b }) doc.users
    { status := 200, message := "", doc := { doc with users := users' } }

/-- `POST /api/user/profile-picture` (server.js lines 291-331), with the
upload already resolved to its public `url`. -/
def setProfilePicture (doc : Document) (hasFile : Bool) (uid url : String) : OpOut :=
  if !hasFile then
    { status := 400, message := "لم يتم رفع أي صورة", doc := doc }
  else
    match lookupUser doc uid with
    | none => { status := 404, message := "المستخدم غير موجود", doc := doc }
    | some _ =>
      let users' := updateFirst (fun u => u.id == uid)
        (fun u => { u with profilePictureUrl := some url }) doc.users
      { status := 200, message := "تم رفع الصورة بنجاح",
        doc := { doc with users := users' } }

/-! ## Challenge lifecycle endpoints -/

/-- `POST /api/challenges/:challengeId/start` (server.js lines 334-367).
`now` stands for `new Date().toISOString()`. -/
def startChallenge (doc : Document) (uid cid now : String) : OpOut :=
  match lookupUser doc uid with
  | none => { status := 404, message := "المستخدم غير موجود", doc := doc }
  | some u =>
    match doc.challenges.find? (fun c => c.id == cid) with
    | none => { status := 404, message := "التحدي غير موجود", doc := doc }
    | some c =>
      if u.activeChallenge.isSome then
        { status := 400, message := "لديك تحدي نشط بالفعل", doc := doc }
      else
        let snap : ActiveChallenge :=
          { id := c.id, name := c.name, reward := c.reward, startedAt := now }
        let users' := updateFirst (fun x => x.id == uid)
          (fun x => { x with activeChallenge := some snap }) doc.users
        { status := 200, message := "تم بدء التحدي بنجاح",
          doc := { doc with users := users' } }

/-- `POST /api/challenges/cancel` (server.js lines 370-389). -/
def cancelChallenge (doc : Document) (uid : String) : OpOut :=
  match lookupUser doc uid with
  | none => { status := 404, message := "المستخدم غير موجود", doc := doc }
  | some u =>
    if u.activeChallenge.isNone then
      { status := 400, message := "لا يوجد تحدي نشط", doc := doc }
    else
      let users' := updateFirst (fun x => x.id == uid)
        (fun x => { x with activeChallenge := none }) doc.users
      { status := 200, message := "تم إلغاء التحدي بنجاح",
        doc := { doc with users := users' } }

/-- `POST /api/challenges/submit` (server.js lines 392-432).  The
`challengeName` field is `activeChallenge.name?.ar || activeChallenge.name`;
`newId` is the generated `uuidv4()` and `imageUrl` the stored upload URL. -/
def submitChallenge (doc : Document) (hasFile : Bool)
    (uid newId imageUrl now : String) : OpOut :=
  if !hasFile then
    { status := 400, message := "صورة الإثبات مطلوبة", doc := doc }
  else
    match lookupUser doc uid with
    | none => { status := 404, message := "المستخدم غير موجود", doc := doc }
    | some u =>
      match u.activeChallenge with
      | none => { status := 400, message := "لا يوجد تحدي نشط", doc := doc }
      | some ac =>
        let nameAr := getField ac.name "ar"
        let submission : Submission :=
          { id := newId, userId := u.id, username := u.username,
            challengeName := if truthy nameAr then nameAr else ac.name,
            challenge := ac, imageUrl := imageUrl, status := "pending",
            submittedAt := now }
        let users' := updateFirst (fun x => x.id == uid)
          (fun x => { x with activeChallenge := none }) doc.users
        { status := 200, message := "تم إرسال طلب التحقق بنجاح",
          doc := { doc with
            submissions := doc.submissions ++ [submission],
            users := users' } }

/-! ## Reward redemption -/

/-- Response of `POST /api/rewards/:rewardId/redeem`. -/
structure RedeemOut where
  status : Nat
  message : String
  qrCode : Option String
  remainingPoints : Option Int
  doc : Document

/-- `POST /api/rewards/:rewardId/redeem` (server.js lines 435-472).
`nowIso` stands for `new Date().toISOString()` and `nowMs` for the
decimal rendering of `Date.now()` in the generated QR code. -/
def redeemReward (doc : Document) (uid rid nowIso nowMs : String) :
    RedeemOut :=
  match lookupUser doc uid with
  | none =>
    { status := 404, message := "المستخدم غير موجود", qrCode := none,
      remainingPoints := none, doc := doc }
  | some u =>
    match doc.rewards.find? (fun r => r.id == rid) with
    | none =>
      { status := 404, message := "المكافأة غير موجودة", qrCode := none,
        remainingPoints := none, doc := doc }
    | some r =>
      if u.points < r.cost then
        { status := 400, message := "نقاطك غير كافية لاستبدال هذه المكافأة",
          qrCode := none, remainingPoints := none, doc := doc }
      else
        let qr := "REWARD-" ++ rid ++ "-USER-" ++ u.id ++ "-" ++ nowMs
        let red : Redemption := { id := rid, date := nowIso, qrCodeData := qr }
        let debit : User → User := fun x =>
          { x with points := x.points - r.cost,
                   redeemedRewards := x.redeemedRewards ++ [red] }
        let users' := updateFirst (fun x => x.id == uid) debit doc.users
        { status := 200, message := "تم استبدال المكافأة بنجاح",
          qrCode := some qr, remainingPoints := some (u.points - r.cost),
          doc := { doc with users := users' } }

/-! ## Admin submission review -/

/-- `POST /api/admin/submissions/:id/approve` (server.js lines 528-554).
The endpoint looks the submission up by id (404 when absent), credits
`submission.challenge.reward` to the owning user and appends the
challenge id — only when such a user exists (`userIndex !== -1`) — and
then unconditionally marks the submission approved, stamping
`processedAt` and `pointsAwarded`.  There is no check of the current
`status`. -/
def approveSubmission (doc : Document) (sid now : String) : OpOut :=
  match lookupSubmission doc sid with
  | none => { status := 404, message := "الطلب غير موجود", doc := doc }
  | some s =>
    let credit : User → User := fun u =>
      { u with points := u.points + s.challenge.reward,
               completedChallenges := u.completedChallenges ++ [s.challenge.id] }
    let users' := updateFirst (fun u => u.id == s.userId) credit doc.users
    let resolve : Submission → Submission := fun x =>
      { x with status := "approved", processedAt := some now,
               pointsAwarded := some s.challenge.reward }
    let submissions' := updateFirst (fun x => x.id == sid) resolve doc.submissions
    { status := 200, message := "تمت الموافقة على الطلب",
      doc := { doc with users := users', submissions := submissions' } }

/-- `POST /api/admin/submissions/:id/reject` (server.js lines 557-575):
404 when the id is absent, otherwise unconditionally sets
`status = 'rejected'` and `rejectionReason` (no status check, and
`processedAt` is not touched). -/
def rejectSubmission (doc : Document) (sid : String) (reason : Option String) :
    OpOut :=
  match lookupSubmission doc sid with
  | none => { status := 404, message := "الطلب غير موجود", doc := doc }
  | some _ =>
    let submissions' := updateFirst (fun x => x.id == sid)
      (fun x => { x with status := "rejected", rejectionReason := reason })
      doc.submissions
    { status := 200, message := "تم رفض الطلب",
      doc := { doc with submissions := submissions' } }

/-! ## Support tickets -/

/-- `POST /api/support` (server.js lines 475-507). -/
def postSupport (doc : Document) (uid newId now message : String) : OpOut :=
  if (jsTrim message).data.isEmpty then
    { status := 400, message := "الرسالة مطلوبة", doc := doc }
  else
    match lookupUser doc uid with
    | none => { status := 404, message := "المستخدم غير موجود", doc := doc }
    | some u =>
      { status := 200, message := "تم إرسال رسالتك بنجاح",
        doc := { doc with supportTickets := doc.supportTickets ++
          [{ id := newId, userId := u.id, username := u.username,
             message := jsTrim message, sender := "user", status := "unread",
             createdAt := now }] } }

/-- `POST /api/admin/tickets/reply` (server.js lines 640-669). -/
def adminReply (doc : Document) (uid newId now message : String) : OpOut :=
  if (jsTrim message).data.isEmpty then
    { status := 400, message := "الرسالة مطلوبة", doc := doc }
  else
    match lookupUser doc uid with
    | none => { status := 404, message := "المستخدم غير موجود", doc := doc }
    | some _ =>
      { status := 200, message := "تم إرسال الرد بنجاح",
        doc := { doc with supportTickets := doc.supportTickets ++
          [{ id := newId, userId := uid, username := "Admin",
             message := jsTrim message, sender := "admin", status := "read",
             createdAt := now }] } }

/-- `POST /api/admin/tickets/read` (server.js lines 672-690): mark each
listed ticket read, silently skipping unknown ids. -/
def markTicketsRead (doc : Document) (ticketIds : List String) : OpOut :=
  let tickets' := ticketIds.foldl
    (fun ts tid => updateFirst (fun t => t.id == tid)
      (fun t => { t with status := "read" }) ts) doc.supportTickets
  { status := 200, message := "تم تحديث حالة الرسائل",
    doc := { doc with supportTickets := tickets' } }

/-! ## The document-mutating operations as one step relation -/

/-- One document-mutating request, with all request-supplied data
(identifiers, timestamps, upload URLs, the hash function) as payload. -/
inductive Op where
  | opRegister (username email password : Option String)
      (hash : String → String) (newId : String)
  | opUpdateProfile (uid : String) (bio : Option String)
  | opSetPicture (hasFile : Bool) (uid url : String)
  | opStart (uid cid now : String)
  | opCancel (uid : String)
  | opSubmit (hasFile : Bool) (uid newId imageUrl now : String)
  | opRedeem (uid rid nowIso nowMs : String)
  | opApprove (sid now : String)
  | opReject (sid : String) (reason : Option String)
  | opSupport (uid newId now message : String)
  | opAdminReply (uid newId now message : String)
  | opMarkRead (ids : List String)

/-- The document produced by one request (read-only endpoints never write
the document, so they are not steps). -/
def step (op : Op) (doc : Document) : Document :=
  match op with
  | .opRegister u e p h n => (register doc u e p h n).doc
  | .opUpdateProfile uid b => (updateProfile doc uid b).doc
  | .opSetPicture hf uid url => (setProfilePicture doc hf uid url).doc
  | .opStart uid cid now => (startChallenge doc uid cid now).doc
  | .opCancel uid => (cancelChallenge doc uid).doc
  | .opSubmit hf uid nid img now => (submitChallenge doc hf uid nid img now).doc
  | .opRedeem uid rid t ms => (redeemReward doc uid rid t ms).doc
  | .opApprove sid now => (approveSubmission doc sid now).doc
  | .opReject sid r => (rejectSubmission doc sid r).doc
  | .opSupport uid nid now msg => (postSupport doc uid nid now msg).doc
  | .opAdminReply uid nid now msg => (adminReply doc uid nid now msg).doc
  | .opMarkRead ids => (markTicketsRead doc ids).doc

/-- Every user's points balance is non-negative. -/
def PointsNonneg (doc : Document) : Prop := ∀ u ∈ doc.users, 0 ≤ u.points

/-- Every challenge reward value stored anywhere in the document — the
challenge list, active-challenge snapshots and submission snapshots — is
non-negative. -/
def RewardsNonneg (doc : Document) : Prop :=
  (∀ c ∈ doc.challenges, 0 ≤ c.reward) ∧
  (∀ u ∈ doc.users, ∀ ac, u.activeChallenge = some ac → 0 ≤ ac.reward) ∧
  (∀ s ∈ doc.submissions, 0 ≤ s.challenge.reward)

/-- The combined balance invariant. -/
def Inv (doc : Document) : Prop := PointsNonneg doc ∧ RewardsNonneg doc

/-! ## Concrete sample documents for counterexamples and witnesses -/

def userA : User :=
  { id := "u1", username := "alice", email := "a@x.com", password := "h1",
    points := 0, profilePictureUrl := none, bio := none,
    activeChallenge := none, completedChallenges := [], redeemedRewards := [] }

def snapRun : ActiveChallenge :=
  { id := "c1", name := .vStr "Run", reward := 10, startedAt := "t0" }

def subPending : Submission :=
  { id := "s1", userId := "u1", username := "alice",
    challengeName := .vStr "Run", challenge := snapRun, imageUrl := "img",
    status := "pending", submittedAt := "t1" }

/-- A document with one zero-point user and one pending 10-point
submission owned by that user. -/
def docC1 : Document :=
  { users := [userA], challenges := [], rewards := [], faq := [],
    submissions := [subPending], supportTickets := [] }

/-- The already-approved submission stored in `docC2`. -/
def subApprovedC2 : Submission :=
  { subPending with
    status := "approved", processedAt := some "t2",
    pointsAwarded := some 10 }

/-- A document whose only submission is already approved. -/
def docC2 : Document :=
  { users := [userA], challenges := [], rewards := [], faq := [],
    submissions := [subApprovedC2], supportTickets := [] }

def userBusy : User :=
  { userA with
    id := "u2", username := "bilal", email := "b@x.com",
    activeChallenge := some snapRun }

def chalSwim : Challenge := { id := "c2", name := .vStr "Swim", reward := 5 }

/-- A document with a user whose active-challenge slot is occupied and an
existing second challenge to join. -/
def docC3 : Document :=
  { users := [userBusy], challenges := [chalSwim], rewards := [], faq := [],
    submissions := [], supportTickets := [] }

def userFifty : User :=
  { userA with
    id := "u4", username := "carol", email := "c@x.com", points := 50 }

def rewardCostly : Reward := { id := "r1", name := .vStr "Cup", cost := 100 }

/-- A document with a 50-point user and a 100-point reward. -/
def docC4 : Document :=
  { users := [userFifty], challenges := [], rewards := [rewardCostly],
    faq := [], submissions := [], supportTickets := [] }

def userBob : User :=
  { userA with
    id := "u7", username := "bob", email := "bob@x.com", password := "hb" }

/-- A document with a single user `bob`. -/
def docC7 : Document :=
  { users := [userBob], challenges := [], rewards := [], faq := [],
    submissions := [], supportTickets := [] }

/-- A pending submission owned by a user id that resolves to no user. -/
def subOrphan : Submission :=
  { subPending with id := "s9", userId := "ghost" }

/-- A document whose only submission is owned by a user id that resolves
to no user. -/
def docC10 : Document :=
  { users := [], challenges := [], rewards := [], faq := [],
    submissions := [subOrphan], supportTickets := [] }

/-! ## Lemmas about `updateFirst` -/

theorem mem_updateFirst {p : α → Bool} {f : α → α} {xs : List α} {b : α}
    (hb : b ∈ updateFirst p f xs) : b ∈ xs ∨ ∃ a, a ∈ xs ∧ b = f a := by
  induction xs with
  | nil => simp [updateFirst] at hb
  | cons a as ih =>
    by_cases hpa : p a
    · simp only [updateFirst, if_pos hpa] at hb
      rcases List.mem_cons.mp hb with h | h
      · exact Or.inr ⟨a, List.mem_cons_self a as, h⟩
      · exact Or.inl (List.mem_cons_of_mem a h)
    · simp only [updateFirst, if_neg hpa] at hb
      rcases List.mem_cons.mp hb with h | h
      · exact Or.inl (h ▸ List.mem_cons_self a as)
      · rcases ih h with h' | ⟨c, hc, hbc⟩
        · exact Or.inl (List.mem_cons_of_mem a h')
        · exact Or.inr ⟨c, List.mem_cons_of_mem a hc, hbc⟩

theorem mem_updateFirst_of_find? {p : α → Bool} {f : α → α} {xs : List α}
    {u b : α} (hf : xs.find? p = some u) (hb : b ∈ updateFirst p f xs) :
    b ∈ xs ∨ b = f u := by
  induction xs with
  | nil => simp [updateFirst] at hb
  | cons a as ih =>
    by_cases hpa : p a
    · rw [List.find?_cons_of_pos _ hpa, Option.some.injEq] at hf
      subst hf
      simp only [updateFirst, if_pos hpa] at hb
      rcases List.mem_cons.mp hb with h | h
      · exact Or.inr h
      · exact Or.inl (List.mem_cons_of_mem a h)
    · rw [List.find?_cons_of_neg _ hpa] at hf
      simp only [updateFirst, if_neg hpa] at hb
      rcases List.mem_cons.mp hb with h | h
      · exact Or.inl (h ▸ List.mem_cons_self a as)
      · rcases ih hf h with h' | h'
        · exact Or.inl (List.mem_cons_of_mem a h')
        · exact Or.inr h'

theorem find?_updateFirst {p : α → Bool} {f : α → α} (xs : List α)
    (hp : ∀ a, p (f a) = p a) :
    (updateFirst p f xs).find? p = (xs.find? p).map f := by
  induction xs with
  | nil => simp [updateFirst]
  | cons a as ih =>
    by_cases hpa : p a
    · rw [updateFirst, if_pos hpa, List.find?_cons_of_pos _ hpa,
        List.find?_cons_of_pos _ ((hp a).symm ▸ hpa)]
      rfl
    · rw [updateFirst, if_neg hpa, List.find?_cons_of_neg _ hpa,
        List.find?_cons_of_neg _ hpa]
      exact ih

theorem updateFirst_eq_of_find?_eq_none {p : α → Bool} {f : α → α}
    {xs : List α} (h : xs.find? p = none) : updateFirst p f xs = xs := by
  induction xs with
  | nil => rfl
  | cons a as ih =>
    by_cases hpa : p a
    · rw [List.find?_cons_of_pos _ hpa] at h; exact absurd h (by simp)
    · rw [List.find?_cons_of_neg _ hpa] at h
      rw [updateFirst, if_neg hpa, ih h]

theorem forall_mem_updateFirst {p : α → Bool} {f : α → α} {P : α → Prop}
    {xs : List α} (h : ∀ a ∈ xs, P a) (hf : ∀ a ∈ xs, P a → P (f a)) :
    ∀ b ∈ updateFirst p f xs, P b := by
  intro b hb
  rcases mem_updateFirst hb with h' | ⟨a, ha, rfl⟩
  · exact h b h'
  · exact hf a ha (h a ha)

theorem forall_mem_updateFirst_of_find? {p : α → Bool} {f : α → α}
    {P : α → Prop} {xs : List α} {u : α} (hfind : xs.find? p = some u)
    (h : ∀ a ∈ xs, P a) (hu : P (f u)) :
    ∀ b ∈ updateFirst p f xs, P b := by
  intro b hb
  rcases mem_updateFirst_of_find? hfind hb with h' | rfl
  · exact h b h'
  · exact hu

/-! ## Preservation of the balance invariant by each operation -/

theorem inv_register (doc : Document) (u e p : Option String)
    (h : String → String) (n : String) (hI : Inv doc) :
    Inv (register doc u e p h n).doc := by
  unfold register
  split
  · exact hI
  · split
    · exact hI
    · split
      · exact hI
      · refine ⟨?_, hI.2.1, ?_, hI.2.2.2⟩
        · intro x hx
          rcases List.mem_append.mp hx with hx | hx
          · exact hI.1 x hx
          · rw [List.mem_singleton.mp hx]
        · intro x hx ac hac
          rcases List.mem_append.mp hx with hx | hx
          · exact hI.2.2.1 x hx ac hac
          · rw [List.mem_singleton.mp hx] at hac
            exact absurd hac (by simp)

theorem inv_updateProfile (doc : Document) (uid : String) (bio : Option String)
    (hI : Inv doc) : Inv (updateProfile doc uid bio).doc := by
  unfold updateProfile
  split
  · exact hI
  · cases bio with
    | none => exact hI
    | some b =>
      refine ⟨?_, hI.2.1, ?_, hI.2.2.2⟩
      · exact forall_mem_updateFirst hI.1 (fun a _ hP => hP)
      · exact forall_mem_updateFirst hI.2.2.1 (fun a _ hP => hP)

theorem inv_setPicture (doc : Document) (hf : Bool) (uid url : String)
    (hI : Inv doc) : Inv (setProfilePicture doc hf uid url).doc := by
  unfold setProfilePicture
  split
  · exact hI
  · split
    · exact hI
    · refine ⟨?_, hI.2.1, ?_, hI.2.2.2⟩
      · exact forall_mem_updateFirst hI.1 (fun a _ hP => hP)
      · exact forall_mem_updateFirst hI.2.2.1 (fun a _ hP => hP)

theorem inv_start (doc : Document) (uid cid now : String) (hI : Inv doc) :
    Inv (startChallenge doc uid cid now).doc := by
  unfold startChallenge
  split
  · exact hI
  · split
    · exact hI
    · next c hc =>
      split
      · exact hI
      · refine ⟨?_, hI.2.1, ?_, hI.2.2.2⟩
        · exact forall_mem_updateFirst hI.1 (fun a _ hP => hP)
        · refine forall_mem_updateFirst hI.2.2.1 (fun a _ _ => ?_)
          intro ac hac
          have : ac.reward = c.reward := by
            cases hac
            rfl
          rw [this]
          exact hI.2.1 c (List.mem_of_find?_eq_some hc)

theorem inv_cancel (doc : Document) (uid : String) (hI : Inv doc) :
    Inv (cancelChallenge doc uid).doc := by
  unfold cancelChallenge
  split
  · exact hI
  · split
    · exact hI
    · refine ⟨?_, hI.2.1, ?_, hI.2.2.2⟩
      · exact forall_mem_updateFirst hI.1 (fun a _ hP => hP)
      · refine forall_mem_updateFirst hI.2.2.1 (fun a _ _ => ?_)
        intro ac hac
        exact absurd hac (by simp)

theorem inv_submit (doc : Document) (hf : Bool) (uid nid img now : String)
    (hI : Inv doc) : Inv (submitChallenge doc hf uid nid img now).doc := by
  unfold submitChallenge
  split
  · exact hI
  · split
    · exact hI
    · next u hu =>
      split
      · exact hI
      · next ac hac =>
        refine ⟨?_, hI.2.1, ?_, ?_⟩
        · exact forall_mem_updateFirst hI.1 (fun a _ hP => hP)
        · refine forall_mem_updateFirst hI.2.2.1 (fun a _ _ => ?_)
          intro ac' hac'
          exact absurd hac' (by simp)
        · intro s hs
          rcases List.mem_append.mp hs with hs | hs
          · exact hI.2.2.2 s hs
          · rw [List.mem_singleton.mp hs]
            exact hI.2.2.1 u (List.mem_of_find?_eq_some hu) ac hac

theorem inv_redeem (doc : Document) (uid rid t ms : String)
    (hI : Inv doc) : Inv (redeemReward doc uid rid t ms).doc := by
  unfold redeemReward
  split
  · exact hI
  · next u hu =>
    split
    · exact hI
    · next r hr =>
      split
      · exact hI
      · next hge =>
        refine ⟨?_, hI.2.1, ?_, hI.2.2.2⟩
        · refine forall_mem_updateFirst_of_find? hu hI.1 ?_
          show (0 : Int) ≤ u.points - r.cost
          exact sub_nonneg.mpr (not_lt.mp hge)
        · exact forall_mem_updateFirst hI.2.2.1 (fun a _ hP => hP)

theorem inv_approve (doc : Document) (sid now : String) (hI : Inv doc) :
    Inv (approveSubmission doc sid now).doc := by
  unfold approveSubmission
  split
  · exact hI
  · next s hs =>
    have hrw : (0 : Int) ≤ s.challenge.reward :=
      hI.2.2.2 s (List.mem_of_find?_eq_some hs)
    refine ⟨?_, hI.2.1, ?_, ?_⟩
    · refine forall_mem_updateFirst hI.1 (fun a _ hP => ?_)
      have : (0 : Int) ≤ a.points + s.challenge.reward := add_nonneg hP hrw
      exact this
    · exact forall_mem_updateFirst hI.2.2.1 (fun a _ hP => hP)
    · exact forall_mem_updateFirst hI.2.2.2 (fun a _ hP => hP)

theorem inv_reject (doc : Document) (sid : String) (reason : Option String)
    (hI : Inv doc) : Inv (rejectSubmission doc sid reason).doc := by
  unfold rejectSubmission
  split
  · exact hI
  · exact ⟨hI.1, hI.2.1, hI.2.2.1,
      forall_mem_updateFirst hI.2.2.2 (fun a _ hP => hP)⟩

theorem inv_support (doc : Document) (uid nid now msg : String) (hI : Inv doc) :
    Inv (postSupport doc uid nid now msg).doc := by
  unfold postSupport
  split
  · exact hI
  · split
    · exact hI
    · exact hI

theorem inv_adminReply (doc : Document) (uid nid now msg : String)
    (hI : Inv doc) : Inv (adminReply doc uid nid now msg).doc := by
  unfold adminReply
  split
  · exact hI
  · split
    · exact hI
    · exact hI

theorem inv_markRead (doc : Document) (ids : List String) (hI : Inv doc) :
    Inv (markTicketsRead doc ids).doc := by
  exact hI

/-- One step of any document-mutating operation preserves the combined
balance invariant. -/
theorem inv_step (op : Op) (doc : Document) (hI : Inv doc) :
    Inv (step op doc) := by
  cases op with
  | opRegister u e p h n => exact inv_register doc u e p h n hI
  | opUpdateProfile uid b => exact inv_updateProfile doc uid b hI
  | opSetPicture hf uid url => exact inv_setPicture doc hf uid url hI
  | opStart uid cid now => exact inv_start doc uid cid now hI
  | opCancel uid => exact inv_cancel doc uid hI
  | opSubmit hf uid nid img now => exact inv_submit doc hf uid nid img now hI
  | opRedeem uid rid t ms => exact inv_redeem doc uid rid t ms hI
  | opApprove sid now => exact inv_approve doc sid now hI
  | opReject sid r => exact inv_reject doc sid r hI
  | opSupport uid nid now msg => exact inv_support doc uid nid now msg hI
  | opAdminReply uid nid now msg => exact inv_adminReply doc uid nid now msg hI
  | opMarkRead ids => exact inv_markRead doc ids hI

/-! ## Claim theorems: the Translator -/

theorem translateField_eq (tl : String) (v : Value) :
    translateField tl v = if hasArKey v then getField v tl else v := by
  cases v with
  | vObj fs =>
    cases hf : fs.find? (fun kv => kv.1 == "ar") with
    | none =>
      simp [translateField, hasArKey, getField, hf, truthy, isObjectType,
        isVUndefined]
    | some kv =>
      simp [translateField, hasArKey, getField, hf, truthy, isObjectType]
  | vNull => simp [translateField, hasArKey, truthy, isObjectType]
  | vUndefined => simp [translateField, hasArKey, truthy, isObjectType]
  | vBool b => simp [translateField, hasArKey, truthy, isObjectType]
  | vNum n => simp [translateField, hasArKey, truthy, isObjectType]
  | vStr s => simp [translateField, hasArKey, truthy, isObjectType]
  | vArr xs =>
    simp [translateField, hasArKey, getField, truthy, isObjectType, isVUndefined]

/-- C8: `resolveLocale` returns `"en"` iff the `Accept-Language` header is
present and begins with the case-sensitive prefix `"en"` (e.g. `"en"`,
`"en-US"`), and returns `"ar"` for every other input, including an absent
header (e.g. `"ar"`, `"fr"`, absent): the code's locale resolution agrees
with the spec's `resolveLocale` on every input. -/
theorem resolveLocale_matches_spec :
    (∀ h : Option String, resolveLocale h = resolveLocaleSpec h) ∧
    resolveLocale (some "en") = "en" ∧ resolveLocale (some "en-US") = "en" ∧
    resolveLocale (some "ar") = "ar" ∧ resolveLocale (some "fr") = "ar" ∧
    resolveLocale none = "ar" := by
  refine ⟨?_, rfl, rfl, rfl, rfl, rfl⟩
  intro h
  cases h with
  | none => rfl
  | some s =>
    unfold resolveLocale resolveLocaleSpec
    by_cases he : s.data.isEmpty
    · have hnil : s.data = [] := by
        cases hd : s.data with
        | nil => rfl
        | cons a as => rw [hd] at he; simp [List.isEmpty] at he
      have hpre : jsStartsWith s "en" = false := by
        unfold jsStartsWith
        rw [hnil]
        rfl
      simp [he, hpre]
    · simp [he]

/-- C9: `projectItem` (the code's `translateItem`), for every non-null
item and locale, replaces each top-level field whose value is an object
containing a key `"ar"` with that object's value at the chosen locale,
passes every other field through unchanged (one level only), and returns
null for null input; e.g. `{name:{ar:"أ",en:"A"}, cost:5}` with locale
`"en"` yields `{name:"A", cost:5}`. -/
theorem translateItem_matches_spec :
    (∀ (item : Option (List (String × Value))) (lang : Option String),
      translateItem item lang = projectItemSpec item (resolveLocale lang)) ∧
    (∀ lang, translateItem none lang = none) ∧
    translateItem
      (some [("name", .vObj [("ar", .vStr "أ"), ("en", .vStr "A")]),
             ("cost", .vNum 5)]) (some "en") =
      some [("name", .vStr "A"), ("cost", .vNum 5)] ∧
    translateItem
      (some [("name", .vObj [("ar", .vStr "أ"), ("en", .vStr "A")]),
             ("cost", .vNum 5)]) none =
      some [("name", .vStr "أ"), ("cost", .vNum 5)] := by
  refine ⟨?_, fun lang => rfl, rfl, rfl⟩
  intro item lang
  cases item with
  | none => rfl
  | some fs =>
    simp only [translateItem, projectItemSpec]
    have hfun : (fun kv : String × Value =>
          (kv.1, translateField (resolveLocale lang) kv.2)) =
        (fun kv : String × Value =>
          if hasArKey kv.2 then (kv.1, getField kv.2 (resolveLocale lang))
          else kv) := by
      funext kv
      rw [translateField_eq]
      by_cases h : hasArKey kv.2
      · simp [h]
      · simp [h]
    rw [hfun]

/-! ## Claim theorems: admin submission review -/

theorem approveSubmission_found (doc : Document) (sid now : String)
    (s : Submission) (hs : lookupSubmission doc sid = some s) :
    approveSubmission doc sid now =
      { status := 200, message := "تمت الموافقة على الطلب",
        doc := { doc with
          users := updateFirst (fun u => u.id == s.userId)
            (fun u => { u with
              points := u.points + s.challenge.reward,
              completedChallenges :=
                u.completedChallenges ++ [s.challenge.id] }) doc.users,
          submissions := updateFirst (fun x => x.id == sid)
            (fun x => { x with
              status := "approved", processedAt := some now,
              pointsAwarded := some s.challenge.reward })
            doc.submissions } } := by
  unfold approveSubmission
  rw [hs]

theorem rejectSubmission_found (doc : Document) (sid : String)
    (reason : Option String) (s : Submission)
    (hs : lookupSubmission doc sid = some s) :
    rejectSubmission doc sid reason =
      { status := 200, message := "تم رفض الطلب",
        doc := { doc with
          submissions := updateFirst (fun x => x.id == sid)
            (fun x => { x with
              status := "rejected",
              rejectionReason := reason }) doc.submissions } } := by
  unfold rejectSubmission
  rw [hs]

/-- C1 counterexample: on `docC1` (one zero-point user owning one pending
10-point submission) approving submission `s1` twice leaves the owner
with 20 points, not 10 — the second approve is neither an error nor a
no-op, refuting "the owner's balance is never double-credited". -/
theorem approve_twice_double_credits :
    (lookupUser (approveSubmission
        (approveSubmission docC1 "s1" "t2").doc "s1" "t3").doc "u1").map
      User.points = some 20 ∧ ¬ ((20 : Int) = 10) :=
  ⟨rfl, by decide⟩

/-- C1 (amended): approving a submission id not present in the document
fails with NotFound (404) and leaves the document unchanged; for any
present submission — regardless of its status, there is no pending-only
guard — approve returns 200, overwrites the submission's resolution
fields, and credits `challenge.reward` to the owning user and appends
the challenge id whenever that user exists, so each repeated approve
credits the reward again. -/
theorem approveSubmission_behavior (doc : Document) (sid now : String) :
    (lookupSubmission doc sid = none →
      approveSubmission doc sid now =
        { status := 404, message := "الطلب غير موجود", doc := doc }) ∧
    (∀ s : Submission, lookupSubmission doc sid = some s →
      (approveSubmission doc sid now).status = 200 ∧
      lookupSubmission (approveSubmission doc sid now).doc sid =
        some { s with
          status := "approved", processedAt := some now,
          pointsAwarded := some s.challenge.reward } ∧
      (∀ u : User, lookupUser doc s.userId = some u →
        lookupUser (approveSubmission doc sid now).doc s.userId =
          some { u with
            points := u.points + s.challenge.reward,
            completedChallenges :=
              u.completedChallenges ++ [s.challenge.id] })) := by
  constructor
  · intro h
    unfold approveSubmission
    rw [h]
  · intro s hs
    rw [approveSubmission_found doc sid now s hs]
    refine ⟨rfl, ?_, ?_⟩
    · unfold lookupSubmission at hs ⊢
      dsimp only
      rw [find?_updateFirst, hs]
      · rfl
      · exact fun a => rfl
    · intro u hu
      unfold lookupUser at hu ⊢
      dsimp only
      rw [find?_updateFirst, hu]
      · rfl
      · exact fun a => rfl

/-- Closed witness for the amended C1 theorem on `docC1`. -/
theorem approveSubmission_behavior_witness :
    lookupSubmission docC1 "s1" = some subPending ∧
    lookupUser docC1 "u1" = some userA ∧
    lookupUser (approveSubmission docC1 "s1" "t2").doc "u1" =
      some { userA with
        points := userA.points + subPending.challenge.reward,
        completedChallenges :=
          userA.completedChallenges ++ [subPending.challenge.id] } :=
  ⟨rfl, rfl,
    ((approveSubmission_behavior docC1 "s1" "t2").2 subPending rfl).2.2
      userA rfl⟩

/-- C2 counterexample: on `docC2`, whose only submission is already
approved, rejecting it changes its status to "rejected" — a resolved
submission is not terminal. -/
theorem reject_after_approve_changes_status :
    (lookupSubmission (rejectSubmission docC2 "s1" (some "late")).doc
        "s1").map Submission.status = some "rejected" ∧
    ¬ (("rejected" : String) = "approved") :=
  ⟨rfl, by decide⟩

/-- C2 (amended): a submission is not terminal once resolved: approve and
reject overwrite the status and resolution fields unconditionally, so for
any stored submission — whatever its current status — reject sets it to
"rejected" with the given reason, and approve sets it back to "approved",
stamping `processedAt` and `pointsAwarded` afresh. -/
theorem resolved_submission_not_terminal (doc : Document) (sid now : String)
    (reason : Option String) (s : Submission)
    (hs : lookupSubmission doc sid = some s) :
    lookupSubmission (rejectSubmission doc sid reason).doc sid =
      some { s with status := "rejected", rejectionReason := reason } ∧
    lookupSubmission (approveSubmission doc sid now).doc sid =
      some { s with
        status := "approved", processedAt := some now,
        pointsAwarded := some s.challenge.reward } := by
  constructor
  · rw [rejectSubmission_found doc sid reason s hs]
    unfold lookupSubmission at hs ⊢
    dsimp only
    rw [find?_updateFirst, hs]
    · rfl
    · exact fun a => rfl
  · rw [approveSubmission_found doc sid now s hs]
    unfold lookupSubmission at hs ⊢
    dsimp only
    rw [find?_updateFirst, hs]
    · rfl
    · exact fun a => rfl

/-- Closed witness for the amended C2 theorem on `docC2`. -/
theorem resolved_submission_not_terminal_witness :
    lookupSubmission docC2 "s1" = some subApprovedC2 ∧
    lookupSubmission (rejectSubmission docC2 "s1" (some "late")).doc "s1" =
      some { subApprovedC2 with
        status := "rejected", rejectionReason := some "late" } :=
  ⟨rfl,
    (resolved_submission_not_terminal docC2 "s1" "t9" (some "late") _ rfl).1⟩

/-! ## Claim theorems: starting a challenge while one is active -/

/-- C3 counterexample: on `docC3` the user holds an active challenge and
starts the existing challenge `c2`; the request fails with HTTP 400
("you already have an active challenge"), not the 409 Conflict status
the claim (via the spec's §7 error taxonomy) requires. -/
theorem start_while_active_status_not_conflict :
    (startChallenge docC3 "u2" "c2" "t9").status = 400 ∧
    ¬ ((startChallenge docC3 "u2" "c2" "t9").status = 409) :=
  ⟨rfl, by decide⟩

/-- C3 (amended): for every user whose activeChallenge slot is occupied,
starting any existing challenge fails with HTTP 400 ("you already have an
active challenge") — an InvalidState-style error rather than 409 Conflict
— and returns the document unchanged, so the prior active challenge
snapshot is never overwritten. -/
theorem start_while_active_rejected_unchanged (doc : Document)
    (uid cid now : String) (u : User) (c : Challenge)
    (hu : lookupUser doc uid = some u)
    (hc : doc.challenges.find? (fun x => x.id == cid) = some c)
    (ha : u.activeChallenge.isSome) :
    startChallenge doc uid cid now =
      { status := 400, message := "لديك تحدي نشط بالفعل", doc := doc } := by
  unfold startChallenge
  rw [hu, hc]
  simp [ha]

/-- Closed witness for the amended C3 theorem on `docC3`. -/
theorem start_while_active_rejected_witness :
    lookupUser docC3 "u2" = some userBusy ∧
    docC3.challenges.find? (fun x => x.id == "c2") = some chalSwim ∧
    userBusy.activeChallenge.isSome = true ∧
    startChallenge docC3 "u2" "c2" "t9" =
      { status := 400, message := "لديك تحدي نشط بالفعل", doc := docC3 } :=
  ⟨rfl, rfl, rfl,
    start_while_active_rejected_unchanged docC3 "u2" "c2" "t9" userBusy
      chalSwim rfl rfl rfl⟩

/-! ## Claim theorems: reward redemption -/

theorem redeemReward_found (doc : Document) (uid rid tIso tMs : String)
    (u : User) (r : Reward) (hu : lookupUser doc uid = some u)
    (hr : doc.rewards.find? (fun x => x.id == rid) = some r)
    (hge : ¬ u.points < r.cost) :
    redeemReward doc uid rid tIso tMs =
      { status := 200, message := "تم استبدال المكافأة بنجاح",
        qrCode := some ("REWARD-" ++ rid ++ "-USER-" ++ u.id ++ "-" ++ tMs),
        remainingPoints := some (u.points - r.cost),
        doc := { doc with
          users := updateFirst (fun x => x.id == uid)
            (fun x => { x with
              points := x.points - r.cost,
              redeemedRewards := x.redeemedRewards ++
                [{ id := rid, date := tIso,
                   qrCodeData :=
                     "REWARD-" ++ rid ++ "-USER-" ++ u.id ++ "-" ++ tMs }] })
            doc.users } } := by
  unfold redeemReward
  rw [hu, hr]
  simp [hge]

/-- C4: for every user and reward the redeem endpoint resolves, redemption
fails with InsufficientBalance (400) when `user.points < reward.cost` and
then leaves the document — hence the user's points balance and
redeemedRewards sequence — unchanged; otherwise it debits exactly
`reward.cost`, appends one redemption record carrying the generated code,
and returns the updated balance. -/
theorem redeemReward_spec (doc : Document) (uid rid tIso tMs : String)
    (u : User) (r : Reward) (hu : lookupUser doc uid = some u)
    (hr : doc.rewards.find? (fun x => x.id == rid) = some r) :
    (u.points < r.cost →
      redeemReward doc uid rid tIso tMs =
        { status := 400, message := "نقاطك غير كافية لاستبدال هذه المكافأة",
          qrCode := none, remainingPoints := none, doc := doc }) ∧
    (¬ u.points < r.cost →
      (redeemReward doc uid rid tIso tMs).status = 200 ∧
      (redeemReward doc uid rid tIso tMs).remainingPoints =
        some (u.points - r.cost) ∧
      (redeemReward doc uid rid tIso tMs).qrCode =
        some ("REWARD-" ++ rid ++ "-USER-" ++ u.id ++ "-" ++ tMs) ∧
      lookupUser (redeemReward doc uid rid tIso tMs).doc uid =
        some { u with
          points := u.points - r.cost,
          redeemedRewards := u.redeemedRewards ++
            [{ id := rid, date := tIso,
               qrCodeData :=
                 "REWARD-" ++ rid ++ "-USER-" ++ u.id ++ "-" ++ tMs }] }) := by
  constructor
  · intro hlt
    unfold redeemReward
    rw [hu, hr]
    simp [hlt]
  · intro hge
    rw [redeemReward_found doc uid rid tIso tMs u r hu hr hge]
    refine ⟨rfl, rfl, rfl, ?_⟩
    unfold lookupUser at hu ⊢
    dsimp only
    rw [find?_updateFirst, hu]
    · rfl
    · exact fun a => rfl

/-- Closed witness for the C4 theorem on `docC4` (balance 50, cost 100):
redemption fails with 400 and the document is unchanged. -/
theorem redeemReward_spec_witness :
    lookupUser docC4 "u4" = some userFifty ∧
    docC4.rewards.find? (fun x => x.id == "r1") = some rewardCostly ∧
    userFifty.points < rewardCostly.cost ∧
    redeemReward docC4 "u4" "r1" "t5" "111" =
      { status := 400, message := "نقاطك غير كافية لاستبدال هذه المكافأة",
        qrCode := none, remainingPoints := none, doc := docC4 } :=
  ⟨rfl, rfl, by decide,
    (redeemReward_spec docC4 "u4" "r1" "t5" "111" userFifty rewardCostly
      rfl rfl).1 (by decide)⟩

/-! ## Claim theorems: the points balance invariant -/

theorem inv_foldl (ops : List Op) (doc : Document) (hI : Inv doc) :
    Inv (ops.foldl (fun d op => step op d) doc) := by
  induction ops generalizing doc with
  | nil => exact hI
  | cons op ops ih => exact ih (step op doc) (inv_step op doc hI)

/-- C5: every user's points balance stays non-negative under every
operation: registration initializes it to 0, redemption debits only
behind the `user.points >= reward.cost` guard, and approval only adds;
so, provided every stored challenge reward is non-negative, no document
reachable by any sequence of the service's mutating operations contains
a user with negative points. -/
theorem points_never_negative (doc : Document) (ops : List Op)
    (h1 : PointsNonneg doc) (h2 : RewardsNonneg doc) :
    PointsNonneg (ops.foldl (fun d op => step op d) doc) :=
  (inv_foldl ops doc ⟨h1, h2⟩).1

/-- Closed witness for the C5 theorem: starting from the default empty
document, a register followed by a challenge start keeps all balances
non-negative. -/
theorem points_never_negative_witness :
    PointsNonneg defaultData ∧ RewardsNonneg defaultData ∧
    PointsNonneg
      ([Op.opRegister (some "alice") (some "a@x.com") (some "secret1")
          (fun s => s) "u1",
        Op.opStart "u1" "c1" "t1"].foldl (fun d op => step op d)
        defaultData) :=
  ⟨by simp [PointsNonneg, defaultData],
   by simp [RewardsNonneg, defaultData],
   points_never_negative defaultData _
     (by simp [PointsNonneg, defaultData])
     (by simp [RewardsNonneg, defaultData])⟩

/-! ## Claim theorems: registration -/

/-- C6: register fails with Conflict (409) whenever another user already
has the same username or email compared case-insensitively, fails with
InvalidInput (400) when username, email or password is missing (or empty,
which the same JS truthiness test rejects) or the password is shorter
than 6 characters, and on success creates a user with points = 0 and
empty collections whose returned view excludes the password hash
(`userView` is insensitive to the stored password). -/
theorem register_spec (doc : Document)
    (username email password : Option String) (hash : String → String)
    (newId : String) :
    ((isBlank username || isBlank email || isBlank password) = true →
      (register doc username email password hash newId).status = 400 ∧
      (register doc username email password hash newId).doc = doc) ∧
    ((isBlank username || isBlank email || isBlank password) = false →
      (password.getD "").length < 6 →
      (register doc username email password hash newId).status = 400 ∧
      (register doc username email password hash newId).doc = doc) ∧
    ((isBlank username || isBlank email || isBlank password) = false →
      ¬ (password.getD "").length < 6 →
      (∃ w ∈ doc.users,
        jsToLower w.username = jsToLower (username.getD "") ∨
        jsToLower w.email = jsToLower (email.getD "")) →
      (register doc username email password hash newId).status = 409 ∧
      (register doc username email password hash newId).doc = doc) ∧
    ((isBlank username || isBlank email || isBlank password) = false →
      ¬ (password.getD "").length < 6 →
      (∀ w ∈ doc.users,
        jsToLower w.username ≠ jsToLower (username.getD "") ∧
        jsToLower w.email ≠ jsToLower (email.getD "")) →
      ∃ nu : User,
        (register doc username email password hash newId).status = 201 ∧
        (register doc username email password hash newId).doc.users =
          doc.users ++ [nu] ∧
        (register doc username email password hash newId).user =
          some (userView nu) ∧
        nu.points = 0 ∧ nu.completedChallenges = [] ∧
        nu.redeemedRewards = [] ∧ nu.activeChallenge = none) ∧
    (∀ (u : User) (pw : String),
      userView { u with password := pw } = userView u) := by
  refine ⟨?_, ?_, ?_, ?_, fun u pw => rfl⟩
  · intro hb
    unfold register
    rw [if_pos hb]
    exact ⟨rfl, rfl⟩
  · intro hb hlen
    unfold register
    rw [if_neg (by simp [hb]), if_pos hlen]
    exact ⟨rfl, rfl⟩
  · intro hb hlen hdup
    obtain ⟨w, hw, hor⟩ := hdup
    unfold register
    rw [if_neg (by simp [hb]), if_neg hlen]
    have hsome : (doc.users.find? (fun u =>
        jsToLower u.username == jsToLower (username.getD "") ||
        jsToLower u.email == jsToLower (email.getD ""))).isSome :=
      List.find?_isSome.mpr ⟨w, hw, by
        rcases hor with h | h
        · simp [h]
        · simp [h]⟩
    obtain ⟨x, hx⟩ := Option.isSome_iff_exists.mp hsome
    rw [hx]
    exact ⟨rfl, rfl⟩
  · intro hb hlen hnodup
    unfold register
    rw [if_neg (by simp [hb]), if_neg hlen]
    have hfind : doc.users.find? (fun u =>
        jsToLower u.username == jsToLower (username.getD "") ||
        jsToLower u.email == jsToLower (email.getD "")) = none := by
      rw [List.find?_eq_none]
      intro x hx
      simp only [Bool.or_eq_true, beq_iff_eq]
      rintro (h | h)
      · exact (hnodup x hx).1 h
      · exact (hnodup x hx).2 h
    rw [hfind]
    exact ⟨{ id := newId, username := jsTrim (username.getD ""),
             email := jsToLower (jsTrim (email.getD "")),
             password := hash (password.getD ""), points := 0,
             profilePictureUrl := none, bio := none, activeChallenge := none,
             completedChallenges := [], redeemedRewards := [] },
           rfl, rfl, rfl, rfl, rfl, rfl, rfl⟩

/-- Closed witness for the C6 theorem: registering `alice` against the
empty default document succeeds with 201 and a fresh zero-point user. -/
theorem register_spec_witness :
    (isBlank (some "alice") || isBlank (some "a@x.com") ||
      isBlank (some "secret1")) = false ∧
    ¬ ((some "secret1" : Option String).getD "").length < 6 ∧
    (∃ nu : User,
      (register defaultData (some "alice") (some "a@x.com") (some "secret1")
          (fun s => s) "u1").status = 201 ∧
      (register defaultData (some "alice") (some "a@x.com") (some "secret1")
          (fun s => s) "u1").doc.users = defaultData.users ++ [nu] ∧
      (register defaultData (some "alice") (some "a@x.com") (some "secret1")
          (fun s => s) "u1").user = some (userView nu) ∧
      nu.points = 0 ∧ nu.completedChallenges = [] ∧ nu.redeemedRewards = [] ∧
      nu.activeChallenge = none) :=
  ⟨rfl, by decide,
    (register_spec defaultData (some "alice") (some "a@x.com")
        (some "secret1") (fun s => s) "u1").2.2.2.1 rfl (by decide)
      (fun w hw => by simp [defaultData] at hw)⟩

/-! ## Claim theorems: login indistinguishability -/

/-- C7: the two login failure modes are indistinguishable to the caller:
a request naming a nonexistent username and a request naming an existing
username with a wrong password produce the same 401 status and the
identical error message, leaking nothing about which check failed. -/
theorem login_failures_indistinguishable (doc : Document)
    (verify : String → String → Bool) (u1 p1 u2 p2 : String) (w : User)
    (h1 : doc.users.find?
      (fun u => jsToLower u.username == jsToLower u1) = none)
    (h2 : doc.users.find?
      (fun u => jsToLower u.username == jsToLower u2) = some w)
    (h3 : verify p2 w.password = false) :
    login doc verify u1 p1 = .error invalidLoginResp ∧
    login doc verify u2 p2 = .error invalidLoginResp ∧
    login doc verify u1 p1 = login doc verify u2 p2 ∧
    invalidLoginResp.status = 401 := by
  have e1 : login doc verify u1 p1 = .error invalidLoginResp := by
    unfold login
    rw [h1]
  have e2 : login doc verify u2 p2 = .error invalidLoginResp := by
    unfold login
    rw [h2]
    simp [h3]
  exact ⟨e1, e2, by rw [e1, e2], rfl⟩

/-- Closed witness for the C7 theorem on `docC7`: an unknown username and
a known username (matched case-insensitively) with a failing password
comparison yield the same response. -/
theorem login_failures_indistinguishable_witness :
    docC7.users.find?
      (fun u => jsToLower u.username == jsToLower "ghost") = none ∧
    docC7.users.find?
      (fun u => jsToLower u.username == jsToLower "BOB") = some userBob ∧
    ((fun _ _ => false) : String → String → Bool) "pw" userBob.password
      = false ∧
    login docC7 (fun _ _ => false) "ghost" "x" =
      login docC7 (fun _ _ => false) "BOB" "pw" :=
  ⟨rfl, rfl, rfl,
    (login_failures_indistinguishable docC7 (fun _ _ => false) "ghost" "x"
      "BOB" "pw" userBob rfl rfl rfl).2.2.1⟩

/-! ## Claim theorems: approving an orphan submission -/

/-- C10: approving a submission whose owning user id resolves to no user
does not fail: the endpoint returns 200, the submission is still marked
approved with `processedAt` and `pointsAwarded = challenge.reward` set,
and the users list is untouched — the points-crediting step is silently
skipped. -/
theorem approve_orphan_submission (doc : Document) (sid now : String)
    (s : Submission) (hs : lookupSubmission doc sid = some s)
    (hu : lookupUser doc s.userId = none) :
    (approveSubmission doc sid now).status = 200 ∧
    (approveSubmission doc sid now).doc.users = doc.users ∧
    lookupSubmission (approveSubmission doc sid now).doc sid =
      some { s with
        status := "approved", processedAt := some now,
        pointsAwarded := some s.challenge.reward } := by
  rw [approveSubmission_found doc sid now s hs]
  refine ⟨rfl, ?_, ?_⟩
  · dsimp only
    unfold lookupUser at hu
    exact updateFirst_eq_of_find?_eq_none hu
  · unfold lookupSubmission at hs ⊢
    dsimp only
    rw [find?_updateFirst, hs]
    · rfl
    · exact fun a => rfl

/-- Closed witness for the C10 theorem on `docC10`: approving the orphan
submission succeeds and leaves the (empty) users list unchanged. -/
theorem approve_orphan_submission_witness :
    lookupSubmission docC10 "s9" = some subOrphan ∧
    lookupUser docC10 subOrphan.userId = none ∧
    (approveSubmission docC10 "s9" "t7").status = 200 ∧
    (approveSubmission docC10 "s9" "t7").doc.users = docC10.users :=
  ⟨rfl, rfl,
    (approve_orphan_submission docC10 "s9" "t7" subOrphan rfl rfl).1,
    (approve_orphan_submission docC10 "s9" "t7" subOrphan rfl rfl).2.1⟩

end FitReword
